import Mathlib

/-!
# Verification of the `gaia_all_sky` notebook pipeline

Shallow embedding of `src/experiments/DASK-notebooks/gaia_all_sky.ipynb`:
a linear Dask/datashader pipeline that provisions a Kubernetes Dask
cluster, quiets the `distributed` loggers, reads the `l`/`b` columns of
the Gaia DR2 parquet dataset (primary path with a fallback on
`FileNotFoundError`), persists the frame, counts rows, datashades a
density map, and closes the cluster.

External effects (the filesystem, and whether each library call raises)
are captured by an `Env`; each notebook cell becomes a step that either
produces a value or propagates a `PyExc`.  The pipeline additionally
records a trace of attempted operations, so that ordering, retry and
global-write properties can be stated.
-/

namespace GaiaAllSky

/-- Python exceptions, as far as the notebook can distinguish them:
`FileNotFoundError` (the only type it catches) versus every other
exception type. -/
inductive PyExc where
  | FileNotFoundError (path : String)
  | OtherExc (msg : String)
deriving DecidableEq, Repr

/-- A Dask dataframe handle: the path it was read from, the column
projection, the `index` and `engine` arguments of `dd.read_parquet`,
the logical rows of the selected `(l, b)` columns, and whether it has
been persisted on the cluster. -/
structure DaskDF where
  source : String
  columns : List String
  index : List String
  engine : String
  rows : List (Int × Int)
  persisted : Bool
deriving DecidableEq, Repr

/-- Levels of the Python loggers the notebook touches: the root logger,
`distributed`, and its four children.  `0` is `logging.NOTSET`
(inherit from the parent). -/
structure LogState where
  root : Nat
  dist : Nat
  core : Nat
  comm : Nat
  client : Nat
  scheduler : Nat
deriving DecidableEq, Repr

/-- `logging.INFO`. -/
def INFO : Nat := 20

/-- `logging.getLogger('distributed').getEffectiveLevel()`: own level if
set, else the root logger's level (Python returns `NOTSET` when every
ancestor is unset, which the `0 = NOTSET` encoding reproduces). -/
def effDist (s : LogState) : Nat := if s.dist = 0 then s.root else s.dist

/-- Effective level of `distributed.core`. -/
def effCore (s : LogState) : Nat := if s.core = 0 then effDist s else s.core

/-- Effective level of `distributed.comm`. -/
def effComm (s : LogState) : Nat := if s.comm = 0 then effDist s else s.comm

/-- Effective level of `distributed.client`. -/
def effClient (s : LogState) : Nat := if s.client = 0 then effDist s else s.client

/-- Effective level of `distributed.scheduler`. -/
def effScheduler (s : LogState) : Nat :=
  if s.scheduler = 0 then effDist s else s.scheduler

/-- Loop body for `comp = ''`: set `distributed` to INFO when its
effective level is below INFO. -/
def logStep1 (s : LogState) : LogState :=
  if effDist s < INFO then { s with dist := INFO } else s

/-- Loop body for `comp = '.core'`. -/
def logStep2 (s : LogState) : LogState :=
  if effCore s < INFO then { s with core := INFO } else s

/-- Loop body for `comp = '.comm'`. -/
def logStep3 (s : LogState) : LogState :=
  if effComm s < INFO then { s with comm := INFO } else s

/-- Loop body for `comp = '.client'`. -/
def logStep4 (s : LogState) : LogState :=
  if effClient s < INFO then { s with client := INFO } else s

/-- Loop body for `comp = '.scheduler'`. -/
def logStep5 (s : LogState) : LogState :=
  if effScheduler s < INFO then { s with scheduler := INFO } else s

/-- The notebook's logging cell: the loop over
`['', '.core', '.comm', '.client', '.scheduler']`, in source order. -/
def setupLoggingState (s : LogState) : LogState :=
  logStep5 (logStep4 (logStep3 (logStep2 (logStep1 s))))

/-- The logger names whose level the logging cell writes (`setLevel` is
called exactly when the effective level seen at that iteration is below
INFO). -/
def logWrites (s : LogState) : List String :=
  (if effDist s < INFO then ["distributed"] else []) ++
  (if effCore (logStep1 s) < INFO then ["distributed.core"] else []) ++
  (if effComm (logStep2 (logStep1 s)) < INFO then ["distributed.comm"] else []) ++
  (if effClient (logStep3 (logStep2 (logStep1 s))) < INFO then
    ["distributed.client"] else []) ++
  (if effScheduler (logStep4 (logStep3 (logStep2 (logStep1 s)))) < INFO then
    ["distributed.scheduler"] else [])

/-- The environment a notebook run executes in: which parquet datasets
exist on the filesystem (path to `(l, b)` rows), which reads fail with
an arbitrary exception, whether each library call raises, and the
initial logging state. -/
structure Env where
  files : String → Option (List (Int × Int))
  readFault : String → Option PyExc
  fromYamlFault : Option PyExc
  scaleFault : Option PyExc
  clientFault : Option PyExc
  persistFault : Option PyExc
  countFault : Option PyExc
  extensionFault : Option PyExc
  pointsFault : Option PyExc
  datashadeFault : Option PyExc
  closeFault : Option PyExc
  logState : LogState

/-- Primary dataset path (cell 6, `try` branch). -/
def primaryPath : String := "/project/shared/data/gaia_dr2/gaia_source.parquet"

/-- Fallback dataset path (cell 6, `except FileNotFoundError` branch). -/
def fallbackPath : String :=
  "/project/shared/data/rsp_check_data/parquet/gaia_source.parquet"

/-- The commented-out cloud-storage path in cell 6. -/
def gcsPath : String := "gs://jupyterlabdemo-gaia-dr2/gaia_source.parquet"

/-- Worker template path passed to `KubeCluster.from_yaml` (cell 2). -/
def workerYaml : String := "/etc/dask/dask_worker.yml"

/-- The colormap assigned to `hd.shade.cmap` (cell 9). -/
def shadeCmapValue : List String := ["lightblue", "darkblue"]

/-- The backends passed to `hv.extension` (cell 9). -/
def hvBackends : List String := ["bokeh", "matplotlib"]

/-- `dd.read_parquet(path, columns=columns, index=index, engine=engine)`
against an environment: a read fault raises that exception, a missing
path raises `FileNotFoundError`, otherwise the lazy dataframe handle is
returned. -/
def read_parquet (env : Env) (path : String) (columns index : List String)
    (engine : String) : Except PyExc DaskDF :=
  match env.readFault path with
  | some e => .error e
  | none =>
    match env.files path with
    | none => .error (.FileNotFoundError path)
    | some rows =>
      .ok { source := path, columns := columns, index := index,
            engine := engine, rows := rows, persisted := false }

/-- The operations the notebook can attempt, in the trace of a run. -/
inductive Op where
  | fromYaml (path : String)
  | setupLogging
  | scaleUp (n : Nat)
  | mkClient
  | readParquetOp (path : String) (columns index : List String) (engine : String)
  | persistOp
  | countRows
  | setShadeCmap (cmap : List String)
  | hvExtension (backends : List String)
  | mkPoints
  | datashadeOp
  | closeCluster
deriving DecidableEq, Repr

/-- Cell 6: try the primary read; on `FileNotFoundError` (and only on
that exception type) read the fallback path.  Returns the attempted
read operations alongside the result. -/
def load_dataset (env : Env) : List Op × Except PyExc DaskDF :=
  let att1 := Op.readParquetOp primaryPath ["l", "b"] [] "fastparquet"
  let att2 := Op.readParquetOp fallbackPath ["l", "b"] [] "fastparquet"
  match read_parquet env primaryPath ["l", "b"] [] "fastparquet" with
  | .ok df => ([att1], .ok df)
  | .error (.FileNotFoundError _) =>
    ([att1, att2], read_parquet env fallbackPath ["l", "b"] [] "fastparquet")
  | .error e => ([att1], .error e)

/-- Modelled from the spec: `client.persist` is external (dask) library
code not in this repository; per the spec's data model, the persisted
handle is "same logical dataset, registered with the distributed
runtime for in-memory reuse". -/
def Client.persist (df : DaskDF) : DaskDF := { df with persisted := true }

/-- What a completed run produces: the persisted dataframe, the row
count, and the final logging state. -/
structure PipeResult where
  df : DaskDF
  count : Nat
  logs : LogState
deriving DecidableEq, Repr

/-- The pipeline from the persist cell on (cells 7-12), given the trace
`t4` accumulated so far, the loaded dataframe and the logging state. -/
def pipelineTail (env : Env) (t4 : List Op) (df0 : DaskDF) (ls : LogState) :
    List Op × Except PyExc PipeResult :=
  let t5 := t4 ++ [Op.persistOp]
  match env.persistFault with
  | some e => (t5, .error e)
  | none =>
    let df := Client.persist df0
    let t6 := t5 ++ [Op.countRows]
    match env.countFault with
    | some e => (t6, .error e)
    | none =>
      let n := df.rows.length
      let t7 := t6 ++ [Op.setShadeCmap shadeCmapValue, Op.hvExtension hvBackends]
      match env.extensionFault with
      | some e => (t7, .error e)
      | none =>
        let t8 := t7 ++ [Op.mkPoints]
        match env.pointsFault with
        | some e => (t8, .error e)
        | none =>
          let t9 := t8 ++ [Op.datashadeOp]
          match env.datashadeFault with
          | some e => (t9, .error e)
          | none =>
            let t10 := t9 ++ [Op.closeCluster]
            match env.closeFault with
            | some e => (t10, .error e)
            | none => (t10, .ok { df := df, count := n, logs := ls })

/-- One top-to-bottom run of the notebook: provision the cluster from
the YAML template, quiet the loggers, scale to 15 workers, create the
client, load the dataset (with fallback), then the tail.  The trace
records each operation as it is attempted; the first exception
propagates and ends the run. -/
def runPipeline (env : Env) : List Op × Except PyExc PipeResult :=
  match env.fromYamlFault with
  | some e => ([Op.fromYaml workerYaml], .error e)
  | none =>
    let ls := setupLoggingState env.logState
    match env.scaleFault with
    | some e =>
      ([Op.fromYaml workerYaml, Op.setupLogging, Op.scaleUp 15], .error e)
    | none =>
      match env.clientFault with
      | some e =>
        ([Op.fromYaml workerYaml, Op.setupLogging, Op.scaleUp 15,
          Op.mkClient], .error e)
      | none =>
        match (load_dataset env).2 with
        | .error e =>
          ([Op.fromYaml workerYaml, Op.setupLogging, Op.scaleUp 15,
            Op.mkClient] ++ (load_dataset env).1, .error e)
        | .ok df0 =>
          pipelineTail env
            ([Op.fromYaml workerYaml, Op.setupLogging, Op.scaleUp 15,
              Op.mkClient] ++ (load_dataset env).1) df0 ls

/-- The primary-branch read operation of cell 6. -/
def readPrimaryOp : Op :=
  Op.readParquetOp primaryPath ["l", "b"] [] "fastparquet"

/-- The fallback-branch read operation of cell 6. -/
def readFallbackOp : Op :=
  Op.readParquetOp fallbackPath ["l", "b"] [] "fastparquet"

/-- The operations of cells 7-12, after the dataset is loaded. -/
def tailOps : List Op :=
  [Op.persistOp, Op.countRows, Op.setShadeCmap shadeCmapValue,
   Op.hvExtension hvBackends, Op.mkPoints, Op.datashadeOp, Op.closeCluster]

/-- The complete trace of a run whose primary read succeeds. -/
def fullPrimaryTrace : List Op :=
  [Op.fromYaml workerYaml, Op.setupLogging, Op.scaleUp 15, Op.mkClient,
   readPrimaryOp] ++ tailOps

/-- The complete trace of a run that falls back to the secondary path. -/
def fullFallbackTrace : List Op :=
  [Op.fromYaml workerYaml, Op.setupLogging, Op.scaleUp 15, Op.mkClient,
   readPrimaryOp, readFallbackOp] ++ tailOps

/-- `true` exactly on dataset-read operations. -/
def isReadOp : Op → Bool
  | .readParquetOp _ _ _ _ => true
  | _ => false

/-- `true` on operations that write library-global or module-global
state: the logging cell (logger levels), the `hd.shade.cmap`
assignment, and the `hv.extension` backend registration. -/
def isGlobalWrite : Op → Bool
  | .setupLogging => true
  | .setShadeCmap _ => true
  | .hvExtension _ => true
  | _ => false

/-- `true` only on the standard-logging configuration step. -/
def isLoggingWrite : Op → Bool
  | .setupLogging => true
  | _ => false

/-- Example rows of the `(l, b)` projection. -/
def someRows : List (Int × Int) := [(12, -3), (250, 40)]

/-- A fault-free environment in which the primary dataset exists. -/
def cleanEnv : Env :=
  { files := fun p => if p = primaryPath then some someRows else none,
    readFault := fun _ => none,
    fromYamlFault := none, scaleFault := none, clientFault := none,
    persistFault := none, countFault := none, extensionFault := none,
    pointsFault := none, datashadeFault := none, closeFault := none,
    logState := { root := 10, dist := 0, core := 0, comm := 0,
                  client := 0, scheduler := 0 } }

/-- A fault-free environment in which only the fallback dataset exists. -/
def fbEnv : Env :=
  { cleanEnv with files := fun p => if p = fallbackPath then some someRows else none }

/-- `cleanEnv` with a non-`FileNotFoundError` failure on the primary read. -/
def badPrimaryEnv : Env :=
  { cleanEnv with readFault := fun p =>
      if p = primaryPath then some (.OtherExc "permission denied") else none }

/-- `cleanEnv` with a failing persist step. -/
def persistBoomEnv : Env :=
  { cleanEnv with persistFault := some (.OtherExc "boom") }

/-- A logging state in which all five `distributed` loggers already have
effective level at least INFO. -/
def quietLogState : LogState :=
  { root := 30, dist := 0, core := 25, comm := 0, client := 40, scheduler := 0 }

/-- The handle the primary read yields in `cleanEnv`. -/
def dfPrimary : DaskDF :=
  DaskDF.mk primaryPath ["l", "b"] [] "fastparquet" someRows false

/-- The handle the fallback read yields in `fbEnv`. -/
def dfFallback : DaskDF :=
  DaskDF.mk fallbackPath ["l", "b"] [] "fastparquet" someRows false

/-! ## Trace-shape lemmas -/

theorem tail_shape (env : Env) (t4 : List Op) (df0 : DaskDF) (ls : LogState) :
    ∃ u v, (pipelineTail env t4 df0 ls).1 = t4 ++ u ∧ u ++ v = tailOps := by
  simp only [pipelineTail]
  split
  · exact ⟨[Op.persistOp],
      [Op.countRows, Op.setShadeCmap shadeCmapValue, Op.hvExtension hvBackends,
       Op.mkPoints, Op.datashadeOp, Op.closeCluster], by simp, rfl⟩
  · split
    · exact ⟨[Op.persistOp, Op.countRows],
        [Op.setShadeCmap shadeCmapValue, Op.hvExtension hvBackends,
         Op.mkPoints, Op.datashadeOp, Op.closeCluster], by simp, rfl⟩
    · split
      · exact ⟨[Op.persistOp, Op.countRows, Op.setShadeCmap shadeCmapValue,
          Op.hvExtension hvBackends],
          [Op.mkPoints, Op.datashadeOp, Op.closeCluster], by simp, rfl⟩
      · split
        · exact ⟨[Op.persistOp, Op.countRows, Op.setShadeCmap shadeCmapValue,
            Op.hvExtension hvBackends, Op.mkPoints],
            [Op.datashadeOp, Op.closeCluster], by simp, rfl⟩
        · split
          · exact ⟨[Op.persistOp, Op.countRows, Op.setShadeCmap shadeCmapValue,
              Op.hvExtension hvBackends, Op.mkPoints, Op.datashadeOp],
              [Op.closeCluster], by simp, rfl⟩
          · split
            · exact ⟨tailOps, [], by simp [tailOps], by simp⟩
            · exact ⟨tailOps, [], by simp [tailOps], by simp⟩

theorem load_shape (env : Env) :
    (load_dataset env).1 = [readPrimaryOp] ∨
      (load_dataset env).1 = [readPrimaryOp, readFallbackOp] := by
  simp only [load_dataset]
  split
  · exact Or.inl rfl
  · exact Or.inr rfl
  · exact Or.inl rfl

theorem trace_shape (env : Env) :
    ∃ u, (runPipeline env).1 ++ u = fullPrimaryTrace ∨
      (runPipeline env).1 ++ u = fullFallbackTrace := by
  simp only [runPipeline]
  split
  · exact ⟨[Op.setupLogging, Op.scaleUp 15, Op.mkClient, readPrimaryOp] ++ tailOps,
      Or.inl rfl⟩
  · split
    · exact ⟨[Op.mkClient, readPrimaryOp] ++ tailOps, Or.inl rfl⟩
    · split
      · exact ⟨[readPrimaryOp] ++ tailOps, Or.inl rfl⟩
      · rcases load_shape env with h | h
        · split
          · rw [h]
            exact ⟨tailOps, Or.inl rfl⟩
          · rename_i df0 heq
            obtain ⟨u, v, htr, huv⟩ :=
              tail_shape env ([Op.fromYaml workerYaml, Op.setupLogging,
                Op.scaleUp 15, Op.mkClient] ++ (load_dataset env).1) df0
                (setupLoggingState env.logState)
            refine ⟨v, Or.inl ?_⟩
            rw [htr, h, List.append_assoc, huv]
            rfl
        · split
          · rw [h]
            exact ⟨tailOps, Or.inr rfl⟩
          · rename_i df0 heq
            obtain ⟨u, v, htr, huv⟩ :=
              tail_shape env ([Op.fromYaml workerYaml, Op.setupLogging,
                Op.scaleUp 15, Op.mkClient] ++ (load_dataset env).1) df0
                (setupLoggingState env.logState)
            refine ⟨v, Or.inr ?_⟩
            rw [htr, h, List.append_assoc, huv]
            rfl

theorem trace_sublist (env : Env) :
    List.Sublist (runPipeline env).1 fullPrimaryTrace ∨
      List.Sublist (runPipeline env).1 fullFallbackTrace := by
  rcases trace_shape env with ⟨u, h | h⟩
  · exact Or.inl (h ▸ List.sublist_append_left _ u)
  · exact Or.inr (h ▸ List.sublist_append_left _ u)

theorem trace_nodup (env : Env) : ((runPipeline env).1).Nodup := by
  rcases trace_sublist env with h | h
  · exact List.Nodup.sublist h (by decide)
  · exact List.Nodup.sublist h (by decide)

theorem trace_take (env : Env) :
    ∃ n, n < 14 ∧ ((runPipeline env).1 = fullPrimaryTrace.take n ∨
      (runPipeline env).1 = fullFallbackTrace.take n) := by
  rcases trace_shape env with ⟨u, h | h⟩
  · refine ⟨(runPipeline env).1.length, ?_, Or.inl ?_⟩
    · have hl := congrArg List.length h
      simp [fullPrimaryTrace, tailOps] at hl
      omega
    · rw [← h, List.take_left]
  · refine ⟨(runPipeline env).1.length, ?_, Or.inr ?_⟩
    · have hl := congrArg List.length h
      simp [fullFallbackTrace, tailOps] at hl
      omega
    · rw [← h, List.take_left]

/-- `true` exactly on `scale_up` operations. -/
def isScaleOp : Op → Bool
  | .scaleUp _ => true
  | _ => false

/-- `true` exactly on `KubeCluster.from_yaml` operations. -/
def isFromYamlOp : Op → Bool
  | .fromYaml _ => true
  | _ => false

theorem full_classified_primary : ∀ op ∈ fullPrimaryTrace,
    (isReadOp op = true → op = readPrimaryOp ∨ op = readFallbackOp) ∧
    (isScaleOp op = true → op = Op.scaleUp 15) ∧
    (isFromYamlOp op = true → op = Op.fromYaml workerYaml) ∧
    (isGlobalWrite op = true → isLoggingWrite op = true ∨
      op = Op.setShadeCmap shadeCmapValue ∨ op = Op.hvExtension hvBackends) := by
  decide

theorem full_classified_fallback : ∀ op ∈ fullFallbackTrace,
    (isReadOp op = true → op = readPrimaryOp ∨ op = readFallbackOp) ∧
    (isScaleOp op = true → op = Op.scaleUp 15) ∧
    (isFromYamlOp op = true → op = Op.fromYaml workerYaml) ∧
    (isGlobalWrite op = true → isLoggingWrite op = true ∨
      op = Op.setShadeCmap shadeCmapValue ∨ op = Op.hvExtension hvBackends) := by
  decide

theorem trace_classified (env : Env) : ∀ op ∈ (runPipeline env).1,
    (isReadOp op = true → op = readPrimaryOp ∨ op = readFallbackOp) ∧
    (isScaleOp op = true → op = Op.scaleUp 15) ∧
    (isFromYamlOp op = true → op = Op.fromYaml workerYaml) ∧
    (isGlobalWrite op = true → isLoggingWrite op = true ∨
      op = Op.setShadeCmap shadeCmapValue ∨ op = Op.hvExtension hvBackends) := by
  intro op hop
  rcases trace_sublist env with h | h
  · exact full_classified_primary op (h.subset hop)
  · exact full_classified_fallback op (h.subset hop)

theorem order_take : ∀ n < 14,
    (Op.closeCluster ∈ fullPrimaryTrace.take n →
      Op.datashadeOp ∈ fullPrimaryTrace.take n ∧
      (fullPrimaryTrace.take n).indexOf Op.datashadeOp <
        (fullPrimaryTrace.take n).indexOf Op.closeCluster) ∧
    (Op.closeCluster ∈ fullFallbackTrace.take n →
      Op.datashadeOp ∈ fullFallbackTrace.take n ∧
      (fullFallbackTrace.take n).indexOf Op.datashadeOp <
        (fullFallbackTrace.take n).indexOf Op.closeCluster) := by
  decide

/-! ## Logging-step lemmas -/

theorem effDist_inv2 (s : LogState) : effDist (logStep2 s) = effDist s := by
  unfold logStep2; split <;> rfl

theorem effDist_inv3 (s : LogState) : effDist (logStep3 s) = effDist s := by
  unfold logStep3; split <;> rfl

theorem effDist_inv4 (s : LogState) : effDist (logStep4 s) = effDist s := by
  unfold logStep4; split <;> rfl

theorem effDist_inv5 (s : LogState) : effDist (logStep5 s) = effDist s := by
  unfold logStep5; split <;> rfl

theorem effCore_inv3 (s : LogState) : effCore (logStep3 s) = effCore s := by
  unfold logStep3; split <;> rfl

theorem effCore_inv4 (s : LogState) : effCore (logStep4 s) = effCore s := by
  unfold logStep4; split <;> rfl

theorem effCore_inv5 (s : LogState) : effCore (logStep5 s) = effCore s := by
  unfold logStep5; split <;> rfl

theorem effComm_inv2 (s : LogState) : effComm (logStep2 s) = effComm s := by
  unfold logStep2; split <;> rfl

theorem effComm_inv4 (s : LogState) : effComm (logStep4 s) = effComm s := by
  unfold logStep4; split <;> rfl

theorem effComm_inv5 (s : LogState) : effComm (logStep5 s) = effComm s := by
  unfold logStep5; split <;> rfl

theorem effClient_inv2 (s : LogState) : effClient (logStep2 s) = effClient s := by
  unfold logStep2; split <;> rfl

theorem effClient_inv3 (s : LogState) : effClient (logStep3 s) = effClient s := by
  unfold logStep3; split <;> rfl

theorem effClient_inv5 (s : LogState) : effClient (logStep5 s) = effClient s := by
  unfold logStep5; split <;> rfl

theorem effScheduler_inv2 (s : LogState) :
    effScheduler (logStep2 s) = effScheduler s := by
  unfold logStep2; split <;> rfl

theorem effScheduler_inv3 (s : LogState) :
    effScheduler (logStep3 s) = effScheduler s := by
  unfold logStep3; split <;> rfl

theorem effScheduler_inv4 (s : LogState) :
    effScheduler (logStep4 s) = effScheduler s := by
  unfold logStep4; split <;> rfl

theorem effDist_e1 (s : LogState) : INFO ≤ effDist (logStep1 s) := by
  unfold logStep1
  split
  · show INFO ≤ effDist { s with dist := INFO }
    simp [effDist, INFO]
  · rename_i hlt
    omega

theorem effCore_e2 (s : LogState) : INFO ≤ effCore (logStep2 s) := by
  unfold logStep2
  split
  · show INFO ≤ effCore { s with core := INFO }
    simp [effCore, INFO]
  · rename_i hlt
    omega

theorem effComm_e3 (s : LogState) : INFO ≤ effComm (logStep3 s) := by
  unfold logStep3
  split
  · show INFO ≤ effComm { s with comm := INFO }
    simp [effComm, INFO]
  · rename_i hlt
    omega

theorem effClient_e4 (s : LogState) : INFO ≤ effClient (logStep4 s) := by
  unfold logStep4
  split
  · show INFO ≤ effClient { s with client := INFO }
    simp [effClient, INFO]
  · rename_i hlt
    omega

theorem effScheduler_e5 (s : LogState) : INFO ≤ effScheduler (logStep5 s) := by
  unfold logStep5
  split
  · show INFO ≤ effScheduler { s with scheduler := INFO }
    simp [effScheduler, INFO]
  · rename_i hlt
    omega

theorem effCore_m1 (s : LogState) (h : INFO ≤ effCore s) :
    INFO ≤ effCore (logStep1 s) := by
  unfold logStep1
  split
  · rename_i hlt
    by_cases hc : s.core = 0
    · exfalso
      unfold effCore at h
      rw [if_pos hc] at h
      omega
    · show INFO ≤ effCore { s with dist := INFO }
      unfold effCore at h ⊢
      rw [if_neg hc] at h
      simp [hc]
      exact h
  · exact h

theorem effComm_m1 (s : LogState) (h : INFO ≤ effComm s) :
    INFO ≤ effComm (logStep1 s) := by
  unfold logStep1
  split
  · rename_i hlt
    by_cases hc : s.comm = 0
    · exfalso
      unfold effComm at h
      rw [if_pos hc] at h
      omega
    · show INFO ≤ effComm { s with dist := INFO }
      unfold effComm at h ⊢
      rw [if_neg hc] at h
      simp [hc]
      exact h
  · exact h

theorem effClient_m1 (s : LogState) (h : INFO ≤ effClient s) :
    INFO ≤ effClient (logStep1 s) := by
  unfold logStep1
  split
  · rename_i hlt
    by_cases hc : s.client = 0
    · exfalso
      unfold effClient at h
      rw [if_pos hc] at h
      omega
    · show INFO ≤ effClient { s with dist := INFO }
      unfold effClient at h ⊢
      rw [if_neg hc] at h
      simp [hc]
      exact h
  · exact h

theorem effScheduler_m1 (s : LogState) (h : INFO ≤ effScheduler s) :
    INFO ≤ effScheduler (logStep1 s) := by
  unfold logStep1
  split
  · rename_i hlt
    by_cases hc : s.scheduler = 0
    · exfalso
      unfold effScheduler at h
      rw [if_pos hc] at h
      omega
    · show INFO ≤ effScheduler { s with dist := INFO }
      unfold effScheduler at h ⊢
      rw [if_neg hc] at h
      simp [hc]
      exact h
  · exact h

theorem setup_effDist (s : LogState) : INFO ≤ effDist (setupLoggingState s) := by
  unfold setupLoggingState
  rw [effDist_inv5, effDist_inv4, effDist_inv3, effDist_inv2]
  exact effDist_e1 s

theorem setup_effCore (s : LogState) : INFO ≤ effCore (setupLoggingState s) := by
  unfold setupLoggingState
  rw [effCore_inv5, effCore_inv4, effCore_inv3]
  exact effCore_e2 (logStep1 s)

theorem setup_effComm (s : LogState) : INFO ≤ effComm (setupLoggingState s) := by
  unfold setupLoggingState
  rw [effComm_inv5, effComm_inv4]
  exact effComm_e3 (logStep2 (logStep1 s))

theorem setup_effClient (s : LogState) : INFO ≤ effClient (setupLoggingState s) := by
  unfold setupLoggingState
  rw [effClient_inv5]
  exact effClient_e4 (logStep3 (logStep2 (logStep1 s)))

theorem setup_effScheduler (s : LogState) :
    INFO ≤ effScheduler (setupLoggingState s) := by
  unfold setupLoggingState
  exact effScheduler_e5 (logStep4 (logStep3 (logStep2 (logStep1 s))))

theorem notin_ite_single {α : Type} {a b : α} {c : Prop} [Decidable c]
    (h : a ≠ b) : a ∉ (if c then [b] else ([] : List α)) := by
  split <;> simp [h]

theorem notin_writes_dist (s : LogState) (h : INFO ≤ effDist s) :
    "distributed" ∉ logWrites s := by
  unfold logWrites
  intro hmem
  simp only [List.mem_append] at hmem
  rcases hmem with ((((h1 | h2) | h3) | h4) | h5)
  · rw [if_neg (by omega)] at h1
    simp at h1
  · exact absurd h2 (notin_ite_single (by decide))
  · exact absurd h3 (notin_ite_single (by decide))
  · exact absurd h4 (notin_ite_single (by decide))
  · exact absurd h5 (notin_ite_single (by decide))

theorem notin_writes_core (s : LogState) (h : INFO ≤ effCore s) :
    "distributed.core" ∉ logWrites s := by
  unfold logWrites
  intro hmem
  simp only [List.mem_append] at hmem
  have hc : INFO ≤ effCore (logStep1 s) := effCore_m1 s h
  rcases hmem with ((((h1 | h2) | h3) | h4) | h5)
  · exact absurd h1 (notin_ite_single (by decide))
  · rw [if_neg (by omega)] at h2
    simp at h2
  · exact absurd h3 (notin_ite_single (by decide))
  · exact absurd h4 (notin_ite_single (by decide))
  · exact absurd h5 (notin_ite_single (by decide))

theorem notin_writes_comm (s : LogState) (h : INFO ≤ effComm s) :
    "distributed.comm" ∉ logWrites s := by
  unfold logWrites
  intro hmem
  simp only [List.mem_append] at hmem
  have hc : INFO ≤ effComm (logStep2 (logStep1 s)) := by
    rw [effComm_inv2]
    exact effComm_m1 s h
  rcases hmem with ((((h1 | h2) | h3) | h4) | h5)
  · exact absurd h1 (notin_ite_single (by decide))
  · exact absurd h2 (notin_ite_single (by decide))
  · rw [if_neg (by omega)] at h3
    simp at h3
  · exact absurd h4 (notin_ite_single (by decide))
  · exact absurd h5 (notin_ite_single (by decide))

theorem notin_writes_client (s : LogState) (h : INFO ≤ effClient s) :
    "distributed.client" ∉ logWrites s := by
  unfold logWrites
  intro hmem
  simp only [List.mem_append] at hmem
  have hc : INFO ≤ effClient (logStep3 (logStep2 (logStep1 s))) := by
    rw [effClient_inv3, effClient_inv2]
    exact effClient_m1 s h
  rcases hmem with ((((h1 | h2) | h3) | h4) | h5)
  · exact absurd h1 (notin_ite_single (by decide))
  · exact absurd h2 (notin_ite_single (by decide))
  · exact absurd h3 (notin_ite_single (by decide))
  · rw [if_neg (by omega)] at h4
    simp at h4
  · exact absurd h5 (notin_ite_single (by decide))

theorem notin_writes_scheduler (s : LogState) (h : INFO ≤ effScheduler s) :
    "distributed.scheduler" ∉ logWrites s := by
  unfold logWrites
  intro hmem
  simp only [List.mem_append] at hmem
  have hc : INFO ≤ effScheduler (logStep4 (logStep3 (logStep2 (logStep1 s)))) := by
    rw [effScheduler_inv4, effScheduler_inv3, effScheduler_inv2]
    exact effScheduler_m1 s h
  rcases hmem with ((((h1 | h2) | h3) | h4) | h5)
  · exact absurd h1 (notin_ite_single (by decide))
  · exact absurd h2 (notin_ite_single (by decide))
  · exact absurd h3 (notin_ite_single (by decide))
  · exact absurd h4 (notin_ite_single (by decide))
  · rw [if_neg (by omega)] at h5
    simp at h5

/-! ## Loader helpers -/

theorem read_ok_fields (env : Env) (path : String) (c i : List String)
    (g : String) (df : DaskDF) (h : read_parquet env path c i g = .ok df) :
    df.source = path ∧ df.columns = c ∧ df.index = i ∧ df.engine = g ∧
      df.persisted = false := by
  unfold read_parquet at h
  split at h
  · simp at h
  · split at h
    · simp at h
    · rw [Except.ok.injEq] at h
      subst h
      exact ⟨rfl, rfl, rfl, rfl, rfl⟩

theorem load_ok_cases (env : Env) (df : DaskDF)
    (h : (load_dataset env).2 = .ok df) :
    read_parquet env primaryPath ["l", "b"] [] "fastparquet" = .ok df ∨
      read_parquet env fallbackPath ["l", "b"] [] "fastparquet" = .ok df := by
  simp only [load_dataset] at h
  split at h
  · rename_i df' heq
    simp at h
    subst h
    exact Or.inl heq
  · exact Or.inr h
  · simp at h

theorem load_read_ops (env : Env) (p : String) (c i : List String) (g : String)
    (h : Op.readParquetOp p c i g ∈ (load_dataset env).1) :
    Op.readParquetOp p c i g = readPrimaryOp ∨
      Op.readParquetOp p c i g = readFallbackOp := by
  rcases load_shape env with hs | hs
  · rw [hs] at h
    simp at h
    exact Or.inl h
  · rw [hs] at h
    simp at h
    exact h

theorem canonical_read_fields {p : String} {c i : List String} {g : String}
    (h : Op.readParquetOp p c i g = readPrimaryOp ∨
         Op.readParquetOp p c i g = readFallbackOp) :
    (p = primaryPath ∨ p = fallbackPath) ∧ c = ["l", "b"] ∧ i = [] ∧
      g = "fastparquet" := by
  rcases h with h | h
  · simp only [readPrimaryOp, Op.readParquetOp.injEq] at h
    exact ⟨Or.inl h.1, h.2.1, h.2.2.1, h.2.2.2⟩
  · simp only [readFallbackOp, Op.readParquetOp.injEq] at h
    exact ⟨Or.inr h.1, h.2.1, h.2.2.1, h.2.2.2⟩

/-! ## Claims -/

/-- C1: if the primary read raises `FileNotFoundError`, the loader reads
the fixed fallback path and returns its handle; in every environment
where the primary path does not exist (and neither read faults
otherwise) and the fallback path exists, the load completes without
raising and yields the fallback dataset. -/
theorem claim_C1 : ∀ (env : Env) (rows : List (Int × Int)),
    (∀ p, read_parquet env primaryPath ["l", "b"] [] "fastparquet" =
        .error (.FileNotFoundError p) →
      (load_dataset env).2 =
        read_parquet env fallbackPath ["l", "b"] [] "fastparquet") ∧
    (env.readFault primaryPath = none → env.files primaryPath = none →
     env.readFault fallbackPath = none → env.files fallbackPath = some rows →
     (load_dataset env).2 =
       .ok (DaskDF.mk fallbackPath ["l", "b"] [] "fastparquet" rows false)) := by
  intro env rows
  constructor
  · intro p hp
    simp [load_dataset, hp]
  · intro h1 h2 h3 h4
    simp [load_dataset, read_parquet, h1, h2, h3, h4]

theorem claim_C1_witness :
    (load_dataset fbEnv).2 =
      .ok (DaskDF.mk fallbackPath ["l", "b"] [] "fastparquet" someRows false) :=
  (claim_C1 fbEnv someRows).2 rfl rfl rfl rfl

/-- C3: every dataset read the loader can perform, in the loader itself
and anywhere in a pipeline run, selects exactly the two columns
`l` and `b` as its column projection. -/
theorem claim_C3 : ∀ (env : Env) (p : String) (c i : List String) (g : String),
    (Op.readParquetOp p c i g ∈ (load_dataset env).1 ∨
     Op.readParquetOp p c i g ∈ (runPipeline env).1) → c = ["l", "b"] := by
  intro env p c i g h
  have key : Op.readParquetOp p c i g = readPrimaryOp ∨
      Op.readParquetOp p c i g = readFallbackOp := by
    rcases h with h | h
    · exact load_read_ops env p c i g h
    · exact (trace_classified env _ h).1 rfl
  exact (canonical_read_fields key).2.1

theorem claim_C3_witness : (["l", "b"] : List String) = ["l", "b"] :=
  claim_C3 cleanEnv primaryPath ["l", "b"] [] "fastparquet" (Or.inl (by decide))

/-- C8: the persist step returns a handle to the same logical dataset:
same rows, columns and row count as the lazy handle; and a successful
pipeline run counts exactly the rows of the loaded dataset. -/
theorem claim_C8 : ∀ (env : Env) (df : DaskDF),
    (load_dataset env).2 = .ok df →
    ((Client.persist df).rows = df.rows ∧
     (Client.persist df).columns = df.columns ∧
     (Client.persist df).rows.length = df.rows.length) ∧
    ∀ r : PipeResult, (runPipeline env).2 = .ok r →
      r.df = Client.persist df ∧ r.count = df.rows.length := by
  intro env df hload
  refine ⟨⟨rfl, rfl, rfl⟩, ?_⟩
  intro r hr
  simp only [runPipeline] at hr
  split at hr
  · simp at hr
  · split at hr
    · simp at hr
    · split at hr
      · simp at hr
      · split at hr
        · simp at hr
        · rename_i df0 heq
          rw [hload] at heq
          injection heq with heq'
          subst heq'
          simp only [pipelineTail] at hr
          split at hr
          · simp at hr
          · split at hr
            · simp at hr
            · split at hr
              · simp at hr
              · split at hr
                · simp at hr
                · split at hr
                  · simp at hr
                  · split at hr
                    · simp at hr
                    · simp only [Except.ok.injEq] at hr
                      subst hr
                      exact ⟨rfl, rfl⟩

theorem claim_C8_witness :
    (Client.persist dfPrimary).rows = dfPrimary.rows ∧
    (PipeResult.mk (DaskDF.mk primaryPath ["l", "b"] [] "fastparquet"
        someRows true) 2 (LogState.mk 10 20 0 0 0 0)).df =
      Client.persist dfPrimary :=
  ⟨((claim_C8 cleanEnv dfPrimary rfl).1).1,
   ((claim_C8 cleanEnv dfPrimary rfl).2 _ rfl).1⟩

/-- C9: after the logging cell, all five `distributed` loggers have
effective level at least INFO, and any of them whose effective level was
already at least INFO beforehand is not written (its name is not in the
list of `setLevel` targets). -/
theorem claim_C9 : ∀ s : LogState,
    (INFO ≤ effDist (setupLoggingState s) ∧
     INFO ≤ effCore (setupLoggingState s) ∧
     INFO ≤ effComm (setupLoggingState s) ∧
     INFO ≤ effClient (setupLoggingState s) ∧
     INFO ≤ effScheduler (setupLoggingState s)) ∧
    ((INFO ≤ effDist s → "distributed" ∉ logWrites s) ∧
     (INFO ≤ effCore s → "distributed.core" ∉ logWrites s) ∧
     (INFO ≤ effComm s → "distributed.comm" ∉ logWrites s) ∧
     (INFO ≤ effClient s → "distributed.client" ∉ logWrites s) ∧
     (INFO ≤ effScheduler s → "distributed.scheduler" ∉ logWrites s)) :=
  fun s =>
    ⟨⟨setup_effDist s, setup_effCore s, setup_effComm s, setup_effClient s,
      setup_effScheduler s⟩,
     ⟨notin_writes_dist s, notin_writes_core s, notin_writes_comm s,
      notin_writes_client s, notin_writes_scheduler s⟩⟩

theorem claim_C9_witness :
    "distributed" ∉ logWrites quietLogState ∧
    "distributed.core" ∉ logWrites quietLogState ∧
    "distributed.comm" ∉ logWrites quietLogState ∧
    "distributed.client" ∉ logWrites quietLogState ∧
    "distributed.scheduler" ∉ logWrites quietLogState :=
  ⟨(claim_C9 quietLogState).2.1 (by decide),
   (claim_C9 quietLogState).2.2.1 (by decide),
   (claim_C9 quietLogState).2.2.2.1 (by decide),
   (claim_C9 quietLogState).2.2.2.2.1 (by decide),
   (claim_C9 quietLogState).2.2.2.2.2 (by decide)⟩

/-- C10: the primary and fallback reads are identical in every parameter
except the path (same columns, same empty index, same engine), and
whichever branch produced the loaded handle, its schema and loader
configuration are the same. -/
theorem claim_C10 :
    (∀ (env : Env) (p : String) (c i : List String) (g : String),
      Op.readParquetOp p c i g ∈ (load_dataset env).1 →
        c = ["l", "b"] ∧ i = [] ∧ g = "fastparquet") ∧
    (∀ (env : Env) (df : DaskDF), (load_dataset env).2 = .ok df →
      df.columns = ["l", "b"] ∧ df.index = [] ∧ df.engine = "fastparquet") := by
  constructor
  · intro env p c i g h
    exact (canonical_read_fields (load_read_ops env p c i g h)).2
  · intro env df h
    rcases load_ok_cases env df h with h | h
    · obtain ⟨_, hc, hi, hg, _⟩ := read_ok_fields _ _ _ _ _ _ h
      exact ⟨hc, hi, hg⟩
    · obtain ⟨_, hc, hi, hg, _⟩ := read_ok_fields _ _ _ _ _ _ h
      exact ⟨hc, hi, hg⟩

theorem claim_C10_witness :
    dfFallback.columns = ["l", "b"] ∧ dfFallback.index = [] ∧
      dfFallback.engine = "fastparquet" :=
  claim_C10.2 fbEnv dfFallback rfl

/-- C2: only `FileNotFoundError` from the primary read is caught: a
non-`FileNotFoundError` exception on the primary read propagates out of
the loader, an exception raised by any other step (cluster provisioning,
client creation, persist, row count, extension/rendering setup, points,
datashade, teardown) propagates out of the pipeline unhandled, and no
operation is ever retried (the trace of attempted operations has no
duplicate). -/
theorem claim_C2 :
    (∀ (env : Env) (m : String),
      env.readFault primaryPath = some (.OtherExc m) →
        (load_dataset env).2 = .error (.OtherExc m)) ∧
    (∀ (env : Env) (e : PyExc), env.fromYamlFault = some e →
      (runPipeline env).2 = .error e) ∧
    (∀ (env : Env) (e : PyExc), env.fromYamlFault = none →
      env.scaleFault = some e → (runPipeline env).2 = .error e) ∧
    (∀ (env : Env) (e : PyExc), env.fromYamlFault = none →
      env.scaleFault = none → env.clientFault = some e →
      (runPipeline env).2 = .error e) ∧
    (∀ (env : Env) (e : PyExc), env.fromYamlFault = none →
      env.scaleFault = none → env.clientFault = none →
      (load_dataset env).2 = .error e → (runPipeline env).2 = .error e) ∧
    (∀ (env : Env) (e : PyExc) (df : DaskDF), env.fromYamlFault = none →
      env.scaleFault = none → env.clientFault = none →
      (load_dataset env).2 = .ok df → env.persistFault = some e →
      (runPipeline env).2 = .error e) ∧
    (∀ (env : Env) (e : PyExc) (df : DaskDF), env.fromYamlFault = none →
      env.scaleFault = none → env.clientFault = none →
      (load_dataset env).2 = .ok df → env.persistFault = none →
      env.countFault = some e → (runPipeline env).2 = .error e) ∧
    (∀ (env : Env) (e : PyExc) (df : DaskDF), env.fromYamlFault = none →
      env.scaleFault = none → env.clientFault = none →
      (load_dataset env).2 = .ok df → env.persistFault = none →
      env.countFault = none → env.extensionFault = some e →
      (runPipeline env).2 = .error e) ∧
    (∀ (env : Env) (e : PyExc) (df : DaskDF), env.fromYamlFault = none →
      env.scaleFault = none → env.clientFault = none →
      (load_dataset env).2 = .ok df → env.persistFault = none →
      env.countFault = none → env.extensionFault = none →
      env.pointsFault = some e → (runPipeline env).2 = .error e) ∧
    (∀ (env : Env) (e : PyExc) (df : DaskDF), env.fromYamlFault = none →
      env.scaleFault = none → env.clientFault = none →
      (load_dataset env).2 = .ok df → env.persistFault = none →
      env.countFault = none → env.extensionFault = none →
      env.pointsFault = none → env.datashadeFault = some e →
      (runPipeline env).2 = .error e) ∧
    (∀ (env : Env) (e : PyExc) (df : DaskDF), env.fromYamlFault = none →
      env.scaleFault = none → env.clientFault = none →
      (load_dataset env).2 = .ok df → env.persistFault = none →
      env.countFault = none → env.extensionFault = none →
      env.pointsFault = none → env.datashadeFault = none →
      env.closeFault = some e → (runPipeline env).2 = .error e) ∧
    (∀ env : Env, ((runPipeline env).1).Nodup) := by
  refine ⟨?_, ?_, ?_, ?_, ?_, ?_, ?_, ?_, ?_, ?_, ?_, trace_nodup⟩
  · intro env m h
    simp [load_dataset, read_parquet, h]
  · intro env e h
    simp [runPipeline, h]
  · intro env e h0 h1
    simp [runPipeline, h0, h1]
  · intro env e h0 h1 h2
    simp [runPipeline, h0, h1, h2]
  · intro env e h0 h1 h2 hl
    simp [runPipeline, h0, h1, h2, hl]
  · intro env e df h0 h1 h2 hl h3
    simp [runPipeline, pipelineTail, h0, h1, h2, hl, h3]
  · intro env e df h0 h1 h2 hl h3 h4
    simp [runPipeline, pipelineTail, h0, h1, h2, hl, h3, h4]
  · intro env e df h0 h1 h2 hl h3 h4 h5
    simp [runPipeline, pipelineTail, h0, h1, h2, hl, h3, h4, h5]
  · intro env e df h0 h1 h2 hl h3 h4 h5 h6
    simp [runPipeline, pipelineTail, h0, h1, h2, hl, h3, h4, h5, h6]
  · intro env e df h0 h1 h2 hl h3 h4 h5 h6 h7
    simp [runPipeline, pipelineTail, h0, h1, h2, hl, h3, h4, h5, h6, h7]
  · intro env e df h0 h1 h2 hl h3 h4 h5 h6 h7 h8
    simp [runPipeline, pipelineTail, h0, h1, h2, hl, h3, h4, h5, h6, h7, h8]

theorem claim_C2_witness :
    (load_dataset badPrimaryEnv).2 = .error (.OtherExc "permission denied") ∧
    (runPipeline persistBoomEnv).2 = .error (.OtherExc "boom") ∧
    ((runPipeline cleanEnv).1).Nodup :=
  ⟨claim_C2.1 badPrimaryEnv "permission denied" rfl,
   claim_C2.2.2.2.2.2.1 persistBoomEnv (.OtherExc "boom") dfPrimary
     rfl rfl rfl rfl rfl,
   claim_C2.2.2.2.2.2.2.2.2.2.2.2 cleanEnv⟩

/-- C4: every run provisions the cluster from the fixed worker template
`/etc/dask/dask_worker.yml` (it is the first attempted operation, and
no other template path ever appears), every scale request asks for
exactly 15 workers, and whenever provisioning does not raise, the
scale-to-15 request is attempted. -/
theorem claim_C4 : ∀ env : Env,
    (runPipeline env).1.head? = some (Op.fromYaml workerYaml) ∧
    (∀ p, Op.fromYaml p ∈ (runPipeline env).1 → p = workerYaml) ∧
    (∀ n, Op.scaleUp n ∈ (runPipeline env).1 → n = 15) ∧
    (env.fromYamlFault = none → Op.scaleUp 15 ∈ (runPipeline env).1) := by
  intro env
  refine ⟨?_, ?_, ?_, ?_⟩
  · simp only [runPipeline]
    split
    · rfl
    · split
      · rfl
      · split
        · rfl
        · split
          · rfl
          · rename_i df0 heq
            obtain ⟨u, v, htr, huv⟩ := tail_shape env
              ([Op.fromYaml workerYaml, Op.setupLogging, Op.scaleUp 15,
                Op.mkClient] ++ (load_dataset env).1) df0
              (setupLoggingState env.logState)
            rw [htr]
            rfl
  · intro p hp
    have h := (trace_classified env _ hp).2.2.1 rfl
    injection h
  · intro n hn
    have h := (trace_classified env _ hn).2.1 rfl
    injection h
  · intro h0
    simp only [runPipeline, h0]
    split
    · simp
    · split
      · simp
      · split
        · exact List.mem_append_left _ (by decide)
        · rename_i df0 heq
          obtain ⟨u, v, htr, huv⟩ := tail_shape env
            ([Op.fromYaml workerYaml, Op.setupLogging, Op.scaleUp 15,
              Op.mkClient] ++ (load_dataset env).1) df0
            (setupLoggingState env.logState)
          rw [htr]
          exact List.mem_append_left _ (List.mem_append_left _ (by decide))

theorem claim_C4_witness : Op.scaleUp 15 ∈ (runPipeline cleanEnv).1 :=
  (claim_C4 cleanEnv).2.2.2 rfl

/-- C5: the loader attempts at most the two filesystem paths (primary,
fallback): every read operation in any run's trace targets one of those
two paths and never the disabled cloud-storage path, and at most two
reads are ever attempted. -/
theorem claim_C5 : ∀ env : Env,
    (∀ (p : String) (c i : List String) (g : String),
      Op.readParquetOp p c i g ∈ (runPipeline env).1 →
        (p = primaryPath ∨ p = fallbackPath) ∧ p ≠ gcsPath) ∧
    (runPipeline env).1.countP isReadOp ≤ 2 := by
  intro env
  constructor
  · intro p c i g h
    have hf := canonical_read_fields ((trace_classified env _ h).1 rfl)
    refine ⟨hf.1, ?_⟩
    rcases hf.1 with rfl | rfl
    · decide
    · decide
  · rcases trace_sublist env with h | h
    · exact le_trans (List.Sublist.countP_le isReadOp h) (by decide)
    · exact le_trans (List.Sublist.countP_le isReadOp h) (by decide)

theorem claim_C5_witness :
    (primaryPath = primaryPath ∨ primaryPath = fallbackPath) ∧
      primaryPath ≠ gcsPath :=
  (claim_C5 cleanEnv).1 primaryPath ["l", "b"] [] "fastparquet" (by decide)

/-- C6: the pipeline's operations occur in the single fixed linear
order (every trace is a prefix of one of the two canonical complete
traces), and in particular the cluster teardown is never executed
before the datashade step. -/
theorem claim_C6 : ∀ env : Env,
    (∃ u, (runPipeline env).1 ++ u = fullPrimaryTrace ∨
          (runPipeline env).1 ++ u = fullFallbackTrace) ∧
    (Op.closeCluster ∈ (runPipeline env).1 →
      Op.datashadeOp ∈ (runPipeline env).1 ∧
      (runPipeline env).1.indexOf Op.datashadeOp <
        (runPipeline env).1.indexOf Op.closeCluster) := by
  intro env
  refine ⟨trace_shape env, ?_⟩
  obtain ⟨n, hn, h | h⟩ := trace_take env
  · rw [h]
    exact (order_take n hn).1
  · rw [h]
    exact (order_take n hn).2

theorem claim_C6_witness :
    Op.datashadeOp ∈ (runPipeline cleanEnv).1 ∧
    (runPipeline cleanEnv).1.indexOf Op.datashadeOp <
      (runPipeline cleanEnv).1.indexOf Op.closeCluster :=
  (claim_C6 cleanEnv).2 (by decide)

/-- C7 (counterexample): the claim that the only global mutable state
the program modifies is logging configuration is false on the code: in
the fault-free environment the run's trace contains a global-state
write (`hd.shade.cmap = ["lightblue", "darkblue"]`) that is not a
logging write. -/
theorem claim_C7_counterexample :
    ¬ (∀ op ∈ (runPipeline cleanEnv).1, isGlobalWrite op = true →
        isLoggingWrite op = true) := by
  intro h
  have hc := h (Op.setShadeCmap shadeCmapValue) (by decide) (by decide)
  exact absurd hc (by decide)

/-- C7 (amended): the global mutable state the program modifies is the
standard logging configuration plus exactly two writes to the
visualization library's global state: the `hd.shade.cmap` colormap
assignment and the `hv.extension` backend registration; no other
global-state write occurs in any run. -/
theorem claim_C7_amended : ∀ env : Env, ∀ op ∈ (runPipeline env).1,
    isGlobalWrite op = true → isLoggingWrite op = true ∨
      op = Op.setShadeCmap shadeCmapValue ∨ op = Op.hvExtension hvBackends := by
  intro env op hop hg
  exact (trace_classified env op hop).2.2.2 hg

theorem claim_C7_witness :
    isLoggingWrite (Op.setShadeCmap shadeCmapValue) = true ∨
    Op.setShadeCmap shadeCmapValue = Op.setShadeCmap shadeCmapValue ∨
    Op.setShadeCmap shadeCmapValue = Op.hvExtension hvBackends :=
  claim_C7_amended cleanEnv (Op.setShadeCmap shadeCmapValue)
    (by decide) (by decide)

end GaiaAllSky
